import Mathlib

/-!
Shallow embedding of the entitlement/subscription reconciliation subsystem of
the repository: the purchase-validation endpoint
(`supabase/functions/process-purchase/index.ts`) and the RevenueCat webhook
handler (`supabase/functions/revenuecat-webhook/index.ts`).

Conventions of the embedding:
* JavaScript `Date` values are epoch milliseconds (`Int`); `Date.toISOString`
  is implemented below (`toISOString`) with the standard civil-from-days
  calendar algorithm, and `new Date(string)` parsing (a platform builtin, not
  repository code) is abstracted as a parameter `parseD : String → Int`.
* Nullable database columns are `Option _`; JavaScript string falsiness
  (`null`/`""`) is modelled explicitly where the source uses `||`.
* The permission store is the external `user_permissions` table, a map keyed
  by (`profile_id`, `permission_id`) per the persisted-state layout; upsert
  uses merge-duplicates semantics on that key: provided columns are written,
  unprovided columns keep their old value on conflict and default to null on
  insert.
* Fallible external calls (database reads/writes, HMAC computation, HTTP
  fetch, JSON parsing) are modelled by explicit error-injection parameters
  or `Except`/`Option`-valued oracles; a handler that `throw`s is a
  `Except.error` result, caught at the serving layer as a 500 response.
-/

/-- A JSON-ish metadata value stored in the `metadata` column:
a string, a boolean, or null/undefined. -/
inductive MetaVal where
  | jstr (s : String)
  | jbool (b : Bool)
  | jnull
deriving DecidableEq, Repr

/-- A JavaScript object held in the `metadata` column, as an association
list with unique keys (insertion ordered). -/
def Metadata := List (String × MetaVal)

instance : DecidableEq Metadata := by
  unfold Metadata
  infer_instance

/-- Key lookup on a metadata object. -/
def Metadata.find : Metadata → String → Option MetaVal
  | [], _ => none
  | (k', v) :: rest, k => if k' = k then some v else Metadata.find rest k

/-- JavaScript object update `{...m, k: v}` restricted to one key: replaces
the value at `k` in place if present, else appends the binding. -/
def Metadata.set (m : Metadata) (k : String) (v : MetaVal) : Metadata :=
  match m with
  | [] => [(k, v)]
  | (k', v') :: rest =>
      if k' = k then (k, v) :: rest
      else (k', v') :: Metadata.set rest k v

/-- One row of the external `user_permissions` table
(columns per the persisted-state layout: `profile_id`, `permission_id`,
`active`, `expires_at`, `product_id`, `platform`, `revenuecat_user_id`,
`metadata`); all non-key columns nullable except `active`. -/
structure PermissionRecord where
  profile_id : String
  permission_id : String
  active : Bool
  expires_at : Option String
  product_id : Option String
  platform : Option String
  revenuecat_user_id : Option String
  metadata : Option Metadata
deriving DecidableEq

/-- The external permission store: at most one row per
(`profile_id`, `permission_id`) key. -/
def Store := String × String → Option PermissionRecord

/-- Payload of one `.upsert({...})` call. `active`, `expires_at` and
`metadata` are provided by every upsert in this codebase; `product_id`,
`platform` and `revenuecat_user_id` are provided only by the activation and
purchase paths (`none` = column absent from the upsert object). -/
structure UpsertRow where
  profile_id : String
  permission_id : String
  active : Bool
  expires_at : Option String
  product_id : Option String
  platform : Option String
  revenuecat_user_id : Option String
  metadata : Metadata

/-- Merge-duplicates upsert against the (`profile_id`, `permission_id`) key:
on conflict the provided columns are overwritten and unprovided columns keep
their old values; on insert unprovided columns default to null. -/
def applyUpsert (st : Store) (row : UpsertRow) : Store :=
  fun key =>
    if key = (row.profile_id, row.permission_id) then
      some (match st (row.profile_id, row.permission_id) with
        | some old =>
          { profile_id := row.profile_id
            permission_id := row.permission_id
            active := row.active
            expires_at := row.expires_at
            product_id := match row.product_id with
              | some p => some p
              | none => old.product_id
            platform := match row.platform with
              | some p => some p
              | none => old.platform
            revenuecat_user_id := match row.revenuecat_user_id with
              | some r => some r
              | none => old.revenuecat_user_id
            metadata := some row.metadata }
        | none =>
          { profile_id := row.profile_id
            permission_id := row.permission_id
            active := row.active
            expires_at := row.expires_at
            product_id := row.product_id
            platform := row.platform
            revenuecat_user_id := row.revenuecat_user_id
            metadata := some row.metadata })
    else st key

/-- Left-pad a number to two decimal digits, as `padStart(2, "0")`. -/
def pad2 (n : Nat) : String :=
  if n < 10 then "0" ++ toString n else toString n

/-- Left-pad a number to three decimal digits. -/
def pad3 (n : Nat) : String :=
  if n < 10 then "00" ++ toString n
  else if n < 100 then "0" ++ toString n
  else toString n

/-- Left-pad a number to four decimal digits. -/
def pad4 (n : Nat) : String :=
  if n < 10 then "000" ++ toString n
  else if n < 100 then "00" ++ toString n
  else if n < 1000 then "0" ++ toString n
  else toString n

/-- `Date.prototype.toISOString` on an epoch-milliseconds value: proleptic
Gregorian calendar via the civil-from-days algorithm, rendered as
`YYYY-MM-DDTHH:MM:SS.mmmZ`. -/
def toISOString (ms : Int) : String :=
  let days : Int := ms.ediv 86400000
  let msOfDay : Nat := (ms.emod 86400000).toNat
  let hour := msOfDay / 3600000
  let minute := msOfDay % 3600000 / 60000
  let second := msOfDay % 60000 / 1000
  let milli := msOfDay % 1000
  let z : Int := days + 719468
  let era : Int := z.ediv 146097
  let doe : Nat := (z.emod 146097).toNat
  let yoe : Nat := (doe - doe / 1460 + doe / 36524 - doe / 146096) / 365
  let doy : Nat := doe - (365 * yoe + yoe / 4 - yoe / 100)
  let mp : Nat := (5 * doy + 2) / 153
  let d : Nat := doy - (153 * mp + 2) / 5 + 1
  let m : Nat := if mp < 10 then mp + 3 else mp - 9
  let y : Int := (yoe : Int) + era * 400 + (if m ≤ 2 then 1 else 0)
  pad4 y.toNat ++ "-" ++ pad2 m ++ "-" ++ pad2 d ++ "T" ++
    pad2 hour ++ ":" ++ pad2 minute ++ ":" ++ pad2 second ++ "." ++
    pad3 milli ++ "Z"

/-- JavaScript `x || null` on a nullable string column: `null` and the empty
string are falsy, every other string is kept. -/
def jsOrNullStr (x : Option String) : Option String :=
  match x with
  | none => none
  | some s => if s = "" then none else some s

/-- `new Date(x)` on a nullable field followed by `.getTime()`: `null`
coerces to epoch 0, a string is parsed by the platform parser `parseD`. -/
def dateOf (parseD : String → Int) (x : Option String) : Int :=
  match x with
  | none => 0
  | some s => parseD s

/-! ## Receipt validator (`process-purchase/index.ts`, `validateReceiptWithRevenueCat`) -/

/-- Result structure returned by the receipt validator
(interface `ValidationResult` in `process-purchase/index.ts`): optional
fields are `undefined` when absent. -/
structure ValidationResult where
  success : Bool
  expires_at : Option String
  entitlement_id : Option String
  original_transaction_id : Option String
  error : Option String
deriving DecidableEq

/-- Request body sent to the provider's receipt endpoint: `app_user_id`
always, `fetch_token` for iOS, `purchase_token` for Android. -/
structure RCRequestBody where
  app_user_id : String
  fetch_token : Option String
  purchase_token : Option String
deriving DecidableEq

/-- One entry of the provider response's `subscriber.subscriptions` map. -/
structure RCSubscription where
  original_transaction_id : Option String
deriving DecidableEq

/-- The provider response's `subscriber.entitlements.product_a` object;
its `expires_date` field may be absent. -/
structure RCEntitlement where
  expires_date : Option String
deriving DecidableEq

/-- The provider response's `subscriber.entitlements` object, of which the
code only reads the `product_a` key. -/
structure RCEntitlements where
  product_a : Option RCEntitlement
deriving DecidableEq

/-- The provider response's `subscriber` object: the optional entitlements
object and the `subscriptions` map (insertion-ordered keys, as
`Object.keys` enumerates them). -/
structure RCSubscriber where
  entitlements : Option RCEntitlements
  subscriptions : List (String × RCSubscription)
deriving DecidableEq

/-- An HTTP response from the provider's receipt endpoint: `ok` mirrors
`response.ok`, `statusCode` the HTTP status, `subscriber` the decoded JSON
body's `subscriber` field. -/
structure RCResponse where
  ok : Bool
  statusCode : Nat
  subscriber : Option RCSubscriber
deriving DecidableEq

/-- `validateReceiptWithRevenueCat` of `process-purchase/index.ts`.
The network call is abstracted: `resp = none` models the `fetch` (or JSON
decoding) throwing, which the source catches and converts into a failure
result; `resp = some r` is the provider's response. -/
def validateReceiptWithRevenueCat (receipt platform userId : String)
    (resp : Option RCResponse) : ValidationResult :=
  let requestBody : Option RCRequestBody :=
    if platform = "ios" then
      some { app_user_id := userId, fetch_token := some receipt,
             purchase_token := none }
    else if platform = "android" then
      some { app_user_id := userId, fetch_token := none,
             purchase_token := some receipt }
    else none
  match requestBody with
  | none =>
      { success := false, expires_at := none, entitlement_id := none,
        original_transaction_id := none,
        error := some ("Unsupported platform: " ++ platform) }
  | some _ =>
    match resp with
    | none =>
        { success := false, expires_at := none, entitlement_id := none,
          original_transaction_id := none,
          error := some "Validation error" }
    | some r =>
      if !r.ok then
        { success := false, expires_at := none, entitlement_id := none,
          original_transaction_id := none,
          error := some ("RevenueCat validation failed: " ++
                        toString r.statusCode) }
      else
        match r.subscriber.bind (fun s => s.entitlements.bind
            (fun e => e.product_a)) with
        | some entitlement =>
          let subscriptions :=
            match r.subscriber with
            | some s => s.subscriptions
            | none => []
          let productIdentifier := (subscriptions.map Prod.fst).head?
          let subscription := productIdentifier.bind
            (fun pid => List.lookup pid subscriptions)
          { success := true
            expires_at := entitlement.expires_date
            entitlement_id := some "product_a"
            original_transaction_id :=
              subscription.bind (fun s => s.original_transaction_id)
            error := none }
        | none =>
          { success := false, expires_at := none, entitlement_id := none,
            original_transaction_id := none,
            error := some "No valid entitlement found" }

/-! ## Purchase endpoint (`process-purchase/index.ts`, `serve` handler) -/

/-- Observable outcome of one purchase-endpoint invocation: HTTP status,
JSON body fields, the resulting store, and whether the receipt validator
was invoked / an upsert was performed. -/
structure PurchaseOutcome where
  status : Nat
  success : Bool
  expires_at : Option String
  error : Option String
  message : Option String
  store : Store
  validatorInvoked : Bool
  wrote : Bool

/-- The POST body of `serve` in `process-purchase/index.ts` (lines 57–184).
Inputs model the environment and external effects: `apiKey` is the
`REVENUECAT_API_KEY` env var (missing/empty throws, caught as 500);
`receipt`/`platform`/`userId`/`productId` the request payload fields (the
empty string models a missing/empty field, which is falsy); `readError`
injects a failure of the duplicate-check select; `parseD`/`now` interpret
dates; `vres` is what `validateReceiptWithRevenueCat` returns if invoked;
`upsertError` injects a failure of the upsert; `nowIso` is
`new Date().toISOString()` at processing time. -/
def processPurchase (apiKey : Option String)
    (receipt platform userId productId : String)
    (st : Store) (readError : Bool) (parseD : String → Int) (now : Int)
    (vres : ValidationResult) (upsertError : Bool) (nowIso : String) :
    PurchaseOutcome :=
  if apiKey = none ∨ apiKey = some "" then
    { status := 500, success := false, expires_at := none,
      error := some "Server error processing purchase", message := none,
      store := st, validatorInvoked := false, wrote := false }
  else if receipt = "" ∨ platform = "" ∨ userId = "" ∨ productId = "" then
    { status := 400, success := false, expires_at := none,
      error := some "Missing required parameters", message := none,
      store := st, validatorInvoked := false, wrote := false }
  else
    let existingPermission : Option PermissionRecord :=
      if readError then none
      else match st (userId, "product_a") with
        | some r => if r.active then some r else none
        | none => none
    let shortCircuit : Option PermissionRecord :=
      match existingPermission with
      | some rec =>
        if dateOf parseD rec.expires_at > now ∧
            rec.product_id = some productId then some rec else none
      | none => none
    match shortCircuit with
    | some rec =>
        { status := 200, success := true, expires_at := rec.expires_at,
          error := none, message := some "Existing subscription found",
          store := st, validatorInvoked := false, wrote := false }
    | none =>
      if !vres.success then
        { status := 400, success := vres.success,
          expires_at := vres.expires_at, error := vres.error,
          message := none, store := st, validatorInvoked := true,
          wrote := false }
      else
        let row : UpsertRow :=
          { profile_id := userId
            permission_id := "product_a"
            active := true
            expires_at := vres.expires_at
            product_id := some productId
            platform := some platform
            revenuecat_user_id := some userId
            metadata :=
              [("transaction_id",
                  match vres.original_transaction_id with
                  | some t => MetaVal.jstr t
                  | none => MetaVal.jnull),
               ("purchase_date", MetaVal.jstr nowIso),
               ("store", MetaVal.jstr
                  (if platform = "ios" then "app_store" else "play_store")),
               ("verification_timestamp", MetaVal.jstr nowIso)] }
        if upsertError then
          { status := 500, success := false, expires_at := none,
            error := some "Failed to update permission record",
            message := none, store := st, validatorInvoked := true,
            wrote := false }
        else
          { status := 200, success := true, expires_at := vres.expires_at,
            error := none, message := none,
            store := applyUpsert st row, validatorInvoked := true,
            wrote := true }

/-! ## Webhook signature verification (`revenuecat-webhook/index.ts`) -/

/-- Verification result structure (interface `VerificationResult`). -/
structure VerificationResult where
  isValid : Bool
  error : Option String
deriving DecidableEq

/-- One byte rendered as `b.toString(16).padStart(2, "0")`: lowercase
hexadecimal, left-padded to two digits. -/
def hexByte (b : Nat) : String :=
  let s := String.mk (Nat.toDigits 16 b)
  if s.length < 2 then "0" ++ s else s

/-- A byte array rendered as a hex string, as
`Array.from(bytes).map(b => b.toString(16).padStart(2, "0")).join("")`. -/
def hexOfBytes (bs : List Nat) : String :=
  String.join (bs.map hexByte)

/-- `verifySignature` of `revenuecat-webhook/index.ts`. The WebCrypto
HMAC-SHA256 primitive is abstracted as `hmac : secret → body → bytes`;
`Except.error` models `importKey`/`sign` throwing, which the source catches
and converts to an invalid result. A missing header short-circuits to
invalid before any hashing. -/
def verifySignature (hmac : String → String → Except Unit (List Nat))
    (body : String) (signature : Option String) (secret : String) :
    VerificationResult :=
  match signature with
  | none => { isValid := false, error := some "Missing signature header" }
  | some sig =>
    match hmac secret body with
    | Except.error _ =>
        { isValid := false, error := some "Signature verification failed" }
    | Except.ok bytes =>
        { isValid := sig = hexOfBytes bytes, error := none }

/-! ## Webhook transition handlers (`revenuecat-webhook/index.ts`) -/

/-- `handleSubscriptionActivation`: full-row upsert with the event's data;
reads no prior state. `writeError` injects a datastore failure of the
upsert, which the handler re-throws. Returns the new store and whether a
write was performed. -/
def handleSubscriptionActivation (st : Store)
    (userId entitlementId productId platform : String)
    (expiresAtMs : Int) (transactionId : String) (nowIso : String)
    (writeError : Bool) : Except String (Store × Bool) :=
  let row : UpsertRow :=
    { profile_id := userId
      permission_id := entitlementId
      active := true
      expires_at := some (toISOString expiresAtMs)
      product_id := some productId
      platform := some platform
      revenuecat_user_id := some userId
      metadata :=
        [("transaction_id", MetaVal.jstr transactionId),
         ("updated_at", MetaVal.jstr nowIso),
         ("status", MetaVal.jstr "active"),
         ("source", MetaVal.jstr "webhook")] }
  if writeError then Except.error "upsert failed"
  else Except.ok (applyUpsert st row, true)

/-- `existingPermission?.metadata || {}`: optional chaining to the nullable
metadata column, with null falling back to the empty object. -/
def priorMetadata (existing : Option PermissionRecord) : Metadata :=
  match existing with
  | none => []
  | some r => match r.metadata with
    | none => []
    | some m => m

/-- `handleSubscriptionCancellation`: reads the existing row (throwing on a
read failure), merges its metadata with cancellation markers, and upserts
with `active` still true and the event's expiry. -/
def handleSubscriptionCancellation (st : Store)
    (userId entitlementId : String) (expiresAtMs : Int) (nowIso : String)
    (fetchError writeError : Bool) : Except String (Store × Bool) :=
  if fetchError then Except.error "fetch failed"
  else
    let existingPermission := st (userId, entitlementId)
    let updatedMetadata :=
      ((priorMetadata existingPermission).set
          "status" (MetaVal.jstr "cancelled")).set
        "cancelled_at" (MetaVal.jstr nowIso) |>.set
        "source" (MetaVal.jstr "webhook")
    let row : UpsertRow :=
      { profile_id := userId
        permission_id := entitlementId
        active := true
        expires_at := some (toISOString expiresAtMs)
        product_id := none
        platform := none
        revenuecat_user_id := none
        metadata := updatedMetadata }
    if writeError then Except.error "upsert failed"
    else Except.ok (applyUpsert st row, true)

/-- `handleSubscriptionExpiration`: reads the existing row (throwing on a
read failure), merges its metadata with expiration markers, and upserts
with `active := false` and `expires_at` taken from the prior row via
`existingPermission?.expires_at || null`. -/
def handleSubscriptionExpiration (st : Store)
    (userId entitlementId : String) (nowIso : String)
    (fetchError writeError : Bool) : Except String (Store × Bool) :=
  if fetchError then Except.error "fetch failed"
  else
    let existingPermission := st (userId, entitlementId)
    let updatedMetadata :=
      ((priorMetadata existingPermission).set
          "status" (MetaVal.jstr "expired")).set
        "expired_at" (MetaVal.jstr nowIso) |>.set
        "source" (MetaVal.jstr "webhook")
    let row : UpsertRow :=
      { profile_id := userId
        permission_id := entitlementId
        active := false
        expires_at :=
          match existingPermission with
          | some r => jsOrNullStr r.expires_at
          | none => none
        product_id := none
        platform := none
        revenuecat_user_id := none
        metadata := updatedMetadata }
    if writeError then Except.error "upsert failed"
    else Except.ok (applyUpsert st row, true)

/-- `handleBillingIssue`: reads the existing row (throwing on a read
failure); if no row exists it returns without writing; otherwise it merges
billing-issue markers into the metadata and upserts with `active` still
true and the prior row's `expires_at` carried over verbatim. -/
def handleBillingIssue (st : Store) (userId entitlementId : String)
    (nowIso : String) (fetchError writeError : Bool) :
    Except String (Store × Bool) :=
  if fetchError then Except.error "fetch failed"
  else
    match st (userId, entitlementId) with
    | none => Except.ok (st, false)
    | some existingPermission =>
      let updatedMetadata :=
        ((priorMetadata (some existingPermission)).set
            "billing_issue" (MetaVal.jbool true)).set
          "billing_issue_detected_at" (MetaVal.jstr nowIso) |>.set
          "source" (MetaVal.jstr "webhook")
      let row : UpsertRow :=
        { profile_id := userId
          permission_id := entitlementId
          active := true
          expires_at := existingPermission.expires_at
          product_id := none
          platform := none
          revenuecat_user_id := none
          metadata := updatedMetadata }
      if writeError then Except.error "upsert failed"
      else Except.ok (applyUpsert st row, true)

/-! ## Webhook router (`revenuecat-webhook/index.ts`, `serve` handler) -/

/-- Event types processed by the webhook (enum `EventType`). -/
inductive EventType where
  | INITIAL_PURCHASE
  | RENEWAL
  | CANCELLATION
  | EXPIRATION
  | PRODUCT_CHANGE
  | BILLING_ISSUE
  | SUBSCRIBER_ALIAS
deriving DecidableEq

/-- The nested `event` object of a RevenueCat webhook payload
(interface `WebhookEvent`). -/
structure WebhookEvent where
  type : EventType
  id : String
  subscriber_id : String
  app_id : String
  original_app_user_id : String
  product_id : String
  entitlement_id : String
  created_at_ms : Int
  expiration_at_ms : Option Int
  store : String
  environment : String
  transaction_id : String

/-- `eventData.expiration_at_ms || 0`: null and 0 are falsy and coerce to
epoch 0; any other millisecond value is kept. -/
def msOrZero (x : Option Int) : Int :=
  match x with
  | none => 0
  | some m => if m = 0 then 0 else m

/-- ASCII `String.prototype.toLowerCase`, as applied to the event's
`store` field. -/
def jsToLower (s : String) : String :=
  s.map Char.toLower

/-- Observable outcome of one webhook invocation: HTTP status, the body's
status tag, the resulting store, and whether a transition handler ran
(handlers are the only code touching the permission store). -/
structure WebhookOutcome where
  status : Nat
  tag : String
  store : Store
  dispatched : Bool

/-- The post-verification event processing of `serve` in
`revenuecat-webhook/index.ts` (lines 112–211): the non-production
short-circuit, the five-way dispatch on event type, and the translation of
a handler's thrown error into the 500 catch-all response. -/
def processEvent (st : Store) (ev : WebhookEvent) (nowIso : String)
    (fetchError writeError : Bool) : WebhookOutcome :=
  if ev.environment ≠ "PRODUCTION" then
    { status := 200, tag := "skipped", store := st, dispatched := false }
  else
    let userId := ev.original_app_user_id
    let entitlementId := ev.entitlement_id
    let handlerResult : Option (Except String (Store × Bool)) :=
      match ev.type with
      | EventType.INITIAL_PURCHASE =>
          some (handleSubscriptionActivation st userId entitlementId
            ev.product_id (jsToLower ev.store)
            (msOrZero ev.expiration_at_ms) ev.transaction_id nowIso
            writeError)
      | EventType.RENEWAL =>
          some (handleSubscriptionActivation st userId entitlementId
            ev.product_id (jsToLower ev.store)
            (msOrZero ev.expiration_at_ms) ev.transaction_id nowIso
            writeError)
      | EventType.CANCELLATION =>
          some (handleSubscriptionCancellation st userId entitlementId
            (msOrZero ev.expiration_at_ms) nowIso fetchError writeError)
      | EventType.EXPIRATION =>
          some (handleSubscriptionExpiration st userId entitlementId
            nowIso fetchError writeError)
      | EventType.PRODUCT_CHANGE =>
          some (handleSubscriptionActivation st userId entitlementId
            ev.product_id (jsToLower ev.store)
            (msOrZero ev.expiration_at_ms) ev.transaction_id nowIso
            writeError)
      | EventType.BILLING_ISSUE =>
          some (handleBillingIssue st userId entitlementId nowIso
            fetchError writeError)
      | EventType.SUBSCRIBER_ALIAS => none
    match handlerResult with
    | none =>
        { status := 200, tag := "processed", store := st,
          dispatched := false }
    | some (Except.error _) =>
        { status := 500, tag := "error", store := st, dispatched := true }
    | some (Except.ok (st', _)) =>
        { status := 200, tag := "processed", store := st',
          dispatched := true }

/-- The full `serve` handler of `revenuecat-webhook/index.ts`: method
check, webhook-secret presence check (missing/empty throws, caught as 500),
signature verification with 401 short-circuit, JSON parsing of the raw body
(abstracted as `parse`; a parse failure throws, caught as 500), then event
processing. -/
def webhookServe (method : String) (secretEnv : Option String)
    (body : String) (sigHeader : Option String)
    (hmac : String → String → Except Unit (List Nat))
    (parse : String → Except Unit WebhookEvent)
    (st : Store) (nowIso : String) (fetchError writeError : Bool) :
    WebhookOutcome :=
  if method = "OPTIONS" then
    { status := 204, tag := "", store := st, dispatched := false }
  else if method ≠ "POST" then
    { status := 405, tag := "Method not allowed", store := st,
      dispatched := false }
  else if secretEnv = none ∨ secretEnv = some "" then
    { status := 500, tag := "error", store := st, dispatched := false }
  else
    let secret := secretEnv.getD ""
    let verification := verifySignature hmac body sigHeader secret
    if !verification.isValid then
      { status := 401, tag := "Invalid signature", store := st,
        dispatched := false }
    else
      match parse body with
      | Except.error _ =>
          { status := 500, tag := "error", store := st,
            dispatched := false }
      | Except.ok ev => processEvent st ev nowIso fetchError writeError

/-! ## Helper lemmas about the metadata object update -/

/-- Looking up the key just set returns the new value. -/
theorem Metadata.find_set_self (m : Metadata) (k : String) (v : MetaVal) :
    (m.set k v).find k = some v := by
  induction m with
  | nil => simp [Metadata.set, Metadata.find]
  | cons hd tl ih =>
    obtain ⟨k', v'⟩ := hd
    by_cases h : k' = k
    · simp [Metadata.set, h, Metadata.find]
    · simp [Metadata.set, h, Metadata.find, ih]

/-- Setting one key leaves lookups of other keys unchanged. -/
theorem Metadata.find_set_ne (m : Metadata) (k k' : String) (v : MetaVal)
    (h : k' ≠ k) : (m.set k v).find k' = m.find k' := by
  induction m with
  | nil => simp [Metadata.set, Metadata.find, Ne.symm h]
  | cons hd tl ih =>
    obtain ⟨k0, v0⟩ := hd
    by_cases h0 : k0 = k
    · subst h0
      simp [Metadata.set, Metadata.find, Ne.symm h]
    · simp [Metadata.set, h0, Metadata.find, ih]

/-! ## Concrete fixtures used by counterexamples and witnesses -/

/-- The empty permission store. -/
def stEmpty : Store := fun _ => none

/-- A validator failure result ("no valid entitlement found"). -/
def vresFail : ValidationResult :=
  { success := false, expires_at := none, entitlement_id := none,
    original_transaction_id := none, error := some "No valid entitlement found" }

/-- An active permission record with a far-future expiry. -/
def recFuture : PermissionRecord :=
  { profile_id := "user-1", permission_id := "product_a", active := true,
    expires_at := some "2030-01-01T00:00:00.000Z",
    product_id := some "premium_monthly", platform := some "app_store",
    revenuecat_user_id := some "user-1",
    metadata := some [("status", MetaVal.jstr "active")] }

/-- A store holding exactly the one record `recFuture`. -/
def stOne : Store :=
  fun k => if k = ("user-1", "product_a") then some recFuture else none

/-- A production billing-issue webhook event. -/
def evBilling : WebhookEvent :=
  { type := EventType.BILLING_ISSUE, id := "evt-1", subscriber_id := "sub-1",
    app_id := "app-1", original_app_user_id := "user-1",
    product_id := "premium_monthly", entitlement_id := "product_a",
    created_at_ms := 1700000000000, expiration_at_ms := none,
    store := "APP_STORE", environment := "PRODUCTION",
    transaction_id := "tx-1" }

/-- A production initial-purchase webhook event whose `expiration_at_ms`
is null. -/
def evPurchase : WebhookEvent :=
  { type := EventType.INITIAL_PURCHASE, id := "evt-2",
    subscriber_id := "sub-1", app_id := "app-1",
    original_app_user_id := "user-1", product_id := "premium_monthly",
    entitlement_id := "product_a", created_at_ms := 1700000000000,
    expiration_at_ms := none, store := "APP_STORE",
    environment := "PRODUCTION", transaction_id := "tx-2" }

/-- A provider response carrying the `product_a` entitlement but with no
`expires_date` field and an empty `subscriptions` map. -/
def respPartial : RCResponse :=
  { ok := true, statusCode := 200,
    subscriber := some
      { entitlements := some { product_a := some { expires_date := none } },
        subscriptions := [] } }

/-- A provider response carrying the `product_a` entitlement with an expiry
and a first subscription with a transaction identifier. -/
def respFull : RCResponse :=
  { ok := true, statusCode := 200,
    subscriber := some
      { entitlements := some
          { product_a := some
              { expires_date := some "2030-01-01T00:00:00.000Z" } },
        subscriptions :=
          [("premium_monthly", { original_transaction_id := some "tx-9" })] } }

/-! ## Claim theorems -/

/-- Claim C1: for every purchase request, the purchase endpoint writes
nothing to the permission store unless the receipt validator returned
success. When the validator's result is a failure, the stored record for
(`userId`, `"product_a"`) is unchanged and no upsert is performed on any
path; and whenever the endpoint actually invoked the validator, it responds
400 carrying the validator's failure reason. (On the duplicate-suppression
short-circuit the validator is never invoked, which the final implication's
guard accounts for.) -/
theorem purchase_validator_failure_no_write (apiKey : Option String)
    (receipt platform userId productId : String)
    (st : Store) (readError : Bool) (parseD : String → Int) (now : Int)
    (vres : ValidationResult) (upsertError : Bool) (nowIso : String)
    (h : vres.success = false) :
    (processPurchase apiKey receipt platform userId productId st readError parseD now
        vres upsertError nowIso).store (userId, "product_a") = st (userId, "product_a") ∧
    (processPurchase apiKey receipt platform userId productId st readError parseD now
        vres upsertError nowIso).wrote = false ∧
    ((processPurchase apiKey receipt platform userId productId st readError parseD now
        vres upsertError nowIso).validatorInvoked = true →
      (processPurchase apiKey receipt platform userId productId st readError parseD now
          vres upsertError nowIso).status = 400 ∧
      (processPurchase apiKey receipt platform userId productId st readError parseD now
          vres upsertError nowIso).error = vres.error) := by
  simp only [processPurchase, h]
  repeat' split
  all_goals simp_all

/-- Witness for C1 at a concrete failing validation. -/
theorem purchase_validator_failure_no_write_witness :
    (processPurchase (some "key") "r" "ios" "u" "p" stEmpty false (fun _ => 0) 0
        vresFail false "t0").store ("u", "product_a") = stEmpty ("u", "product_a") ∧
    (processPurchase (some "key") "r" "ios" "u" "p" stEmpty false (fun _ => 0) 0
        vresFail false "t0").wrote = false ∧
    ((processPurchase (some "key") "r" "ios" "u" "p" stEmpty false (fun _ => 0) 0
        vresFail false "t0").validatorInvoked = true →
      (processPurchase (some "key") "r" "ios" "u" "p" stEmpty false (fun _ => 0) 0
          vresFail false "t0").status = 400 ∧
      (processPurchase (some "key") "r" "ios" "u" "p" stEmpty false (fun _ => 0) 0
          vresFail false "t0").error = vresFail.error) :=
  purchase_validator_failure_no_write (some "key") "r" "ios" "u" "p" stEmpty false
    (fun _ => 0) 0 vresFail false "t0" rfl

/-- Claim C2: the activation handler is idempotent as a state transformer:
applying it to any store and then applying it again with the same event
data leaves every key of the store (in particular the record written for
(`userId`, `entitlementId`)) exactly as after one application, because the
handler is a full-row overwrite keyed by user and entitlement. -/
theorem activation_idempotent (st : Store) (u e p plat : String) (ms : Int)
    (tx nowIso : String) :
    ∃ st1 st2,
      handleSubscriptionActivation st u e p plat ms tx nowIso false
        = Except.ok (st1, true) ∧
      handleSubscriptionActivation st1 u e p plat ms tx nowIso false
        = Except.ok (st2, true) ∧
      (∀ k, st2 k = st1 k) := by
  refine ⟨_, _, rfl, rfl, ?_⟩
  intro k
  by_cases hk : k = (u, e)
  · subst hk
    simp only [handleSubscriptionActivation, applyUpsert, if_pos rfl,
      Bool.false_eq_true]
    cases st (u, e) <;> rfl
  · simp only [handleSubscriptionActivation, applyUpsert, if_neg hk,
      Bool.false_eq_true]

/-- Claim C3: a purchase request (all fields present, provider API key
configured, duplicate-check read succeeding) for a user whose store already
holds an active record with a future expiry and a matching `product_id`
short-circuits: it returns 200 with the existing record's `expires_at`,
never invokes the receipt validator, and performs no write — the resulting
store is the input store. -/
theorem duplicate_purchase_short_circuit (k receipt platform userId productId : String)
    (st : Store) (parseD : String → Int) (now : Int) (rec : PermissionRecord)
    (vres : ValidationResult) (upsertError : Bool) (nowIso : String)
    (hk : k ≠ "") (hr : receipt ≠ "") (hp : platform ≠ "") (hu : userId ≠ "")
    (hprod : productId ≠ "")
    (hst : st (userId, "product_a") = some rec) (hact : rec.active = true)
    (hexp : dateOf parseD rec.expires_at > now)
    (hprodid : rec.product_id = some productId) :
    processPurchase (some k) receipt platform userId productId st false parseD now
        vres upsertError nowIso
      = { status := 200, success := true, expires_at := rec.expires_at,
          error := none, message := some "Existing subscription found",
          store := st, validatorInvoked := false, wrote := false } := by
  simp [processPurchase, hk, hr, hp, hu, hprod, hst, hact, hexp, hprodid]

/-- Witness for C3 at a concrete store with a matching active record. -/
theorem duplicate_purchase_short_circuit_witness :
    processPurchase (some "key") "r" "ios" "user-1" "premium_monthly" stOne false
        (fun _ => 100) 0 vresFail false "t0"
      = { status := 200, success := true, expires_at := recFuture.expires_at,
          error := none, message := some "Existing subscription found",
          store := stOne, validatorInvoked := false, wrote := false } :=
  duplicate_purchase_short_circuit "key" "r" "ios" "user-1" "premium_monthly"
    stOne (fun _ => 100) 0 recFuture vresFail false "t0"
    (by decide) (by decide) (by decide) (by decide) (by decide)
    rfl rfl (by decide) rfl

/-- Claim C4: a POST webhook request whose signature header is missing, or
whose value differs from the hex-encoded HMAC-SHA256 of the raw body under
the configured shared secret (including the case where the HMAC primitive
throws), is answered 401 with no transition handler dispatched and the
store untouched; the verifier itself returns an invalid result rather than
throwing. -/
theorem invalid_signature_rejected (secret body : String) (sig : Option String)
    (hmac : String → String → Except Unit (List Nat))
    (parse : String → Except Unit WebhookEvent)
    (st : Store) (nowIso : String) (fetchError writeError : Bool)
    (hsec : secret ≠ "")
    (hbad : sig = none ∨
      ∀ bs, hmac secret body = Except.ok bs → sig ≠ some (hexOfBytes bs)) :
    (webhookServe "POST" (some secret) body sig hmac parse st nowIso fetchError
        writeError).status = 401 ∧
    (webhookServe "POST" (some secret) body sig hmac parse st nowIso fetchError
        writeError).tag = "Invalid signature" ∧
    (webhookServe "POST" (some secret) body sig hmac parse st nowIso fetchError
        writeError).dispatched = false ∧
    (webhookServe "POST" (some secret) body sig hmac parse st nowIso fetchError
        writeError).store = st ∧
    (verifySignature hmac body sig secret).isValid = false := by
  have hv : (verifySignature hmac body sig secret).isValid = false := by
    rcases hbad with h | h
    · simp [verifySignature, h]
    · cases sig with
      | none => simp [verifySignature]
      | some s =>
        cases hh : hmac secret body with
        | error e => simp [verifySignature, hh]
        | ok bs =>
          have hne : s ≠ hexOfBytes bs := by
            intro heq
            exact h bs hh (by rw [heq])
          simp [verifySignature, hh, hne]
  refine ⟨?_, ?_, ?_, ?_, hv⟩ <;>
    simp [webhookServe, hsec, hv]

/-- Witness for C4 at a concrete mismatched signature. -/
theorem invalid_signature_rejected_witness :
    (webhookServe "POST" (some "shh") "body" (some "bad")
        (fun _ _ => Except.ok [0]) (fun _ => Except.error ()) stEmpty "t0"
        false false).status = 401 ∧
    (webhookServe "POST" (some "shh") "body" (some "bad")
        (fun _ _ => Except.ok [0]) (fun _ => Except.error ()) stEmpty "t0"
        false false).tag = "Invalid signature" ∧
    (webhookServe "POST" (some "shh") "body" (some "bad")
        (fun _ _ => Except.ok [0]) (fun _ => Except.error ()) stEmpty "t0"
        false false).dispatched = false ∧
    (webhookServe "POST" (some "shh") "body" (some "bad")
        (fun _ _ => Except.ok [0]) (fun _ => Except.error ()) stEmpty "t0"
        false false).store = stEmpty ∧
    (verifySignature (fun _ _ => Except.ok [0]) "body" (some "bad") "shh").isValid
      = false :=
  invalid_signature_rejected "shh" "body" (some "bad") (fun _ _ => Except.ok [0])
    (fun _ => Except.error ()) stEmpty "t0" false false (by decide)
    (Or.inr (by intro bs hbs; cases hbs; decide))

/-- Claim C5: applying an expiration event to a store holding a record for
(user, entitlement) with `expires_at = T` yields a record with
`active = false` and `expires_at` still `T`, carried over from the prior
record (the expiration handler receives no expiry from the event and does
not consult the clock for it). `T` ranges over the values a nullable
timestamp column can hold — null or a non-empty timestamp string; the
hypothesis excludes only the non-timestamp empty string, on which the
source's `existingPermission?.expires_at || null` would degenerate. -/
theorem expiration_preserves_expiry (st : Store) (u e nowIso : String)
    (rec : PermissionRecord) (T : Option String)
    (hst : st (u, e) = some rec) (hT : rec.expires_at = T)
    (hne : ∀ s, T = some s → s ≠ "") :
    ∃ st', handleSubscriptionExpiration st u e nowIso false false
        = Except.ok (st', true) ∧
      (st' (u, e)).map PermissionRecord.active = some false ∧
      (st' (u, e)).map PermissionRecord.expires_at = some T := by
  have hj : jsOrNullStr rec.expires_at = T := by
    rw [hT]
    cases T with
    | none => rfl
    | some s => simp [jsOrNullStr, hne s rfl]
  refine ⟨_, rfl, ?_, ?_⟩ <;>
    simp [handleSubscriptionExpiration, applyUpsert, hst, hj]

/-- Witness for C5 at a concrete record with a future expiry. -/
theorem expiration_preserves_expiry_witness :
    ∃ st', handleSubscriptionExpiration stOne "user-1" "product_a" "t0" false false
        = Except.ok (st', true) ∧
      (st' ("user-1", "product_a")).map PermissionRecord.active = some false ∧
      (st' ("user-1", "product_a")).map PermissionRecord.expires_at
        = some (some "2030-01-01T00:00:00.000Z") :=
  expiration_preserves_expiry stOne "user-1" "product_a" "t0" recFuture
    (some "2030-01-01T00:00:00.000Z") rfl rfl
    (by intro s hs; cases hs; decide)

/-- Counterexample to claim C6 as stated: the cancellation handler does not
flip only the metadata status — it also overwrites `expires_at` from the
event. Starting from a record whose `expires_at` is 2030-01-01 and applying
a cancellation whose `expiration_at_ms` is 0, the resulting record still
has `active = true` but its `expires_at` has changed to the epoch instant,
different from the prior value. -/
theorem cancellation_updates_expiry_counterexample :
    (stOne ("user-1", "product_a")).map PermissionRecord.expires_at
      = some (some "2030-01-01T00:00:00.000Z") ∧
    ((handleSubscriptionCancellation stOne "user-1" "product_a" 0 "t0"
        false false).map
        (fun p => ((p.1 ("user-1", "product_a")).map
          (fun r => (r.active, r.expires_at)), p.2)))
      = Except.ok (some (true, some "1970-01-01T00:00:00.000Z"), true) ∧
    (some "1970-01-01T00:00:00.000Z" : Option String)
      ≠ some "2030-01-01T00:00:00.000Z" := by
  refine ⟨rfl, rfl, by decide⟩

/-- Claim C6 as amended: for every cancellation event the resulting record
keeps `active = true` (access continues until expiry — cancellation never
immediately revokes), sets the metadata status to "cancelled" with a
`cancelled_at` timestamp, and additionally updates `expires_at` from the
event's expiry. -/
theorem cancellation_keeps_access (st : Store) (u e : String) (expMs : Int)
    (nowIso : String) :
    ∃ st', handleSubscriptionCancellation st u e expMs nowIso false false
        = Except.ok (st', true) ∧
      (st' (u, e)).map PermissionRecord.active = some true ∧
      (st' (u, e)).map PermissionRecord.expires_at
        = some (some (toISOString expMs)) ∧
      ((st' (u, e)).bind PermissionRecord.metadata).map (fun m => m.find "status")
        = some (some (MetaVal.jstr "cancelled")) ∧
      ((st' (u, e)).bind PermissionRecord.metadata).map
          (fun m => m.find "cancelled_at")
        = some (some (MetaVal.jstr nowIso)) := by
  refine ⟨_, rfl, ?_, ?_, ?_, ?_⟩ <;>
    cases hrec : st (u, e) <;>
      simp [handleSubscriptionCancellation, applyUpsert, hrec]
  all_goals
    first
    | rw [Metadata.find_set_ne _ _ _ _ (by decide),
        Metadata.find_set_ne _ _ _ _ (by decide), Metadata.find_set_self]
    | rw [Metadata.find_set_ne _ _ _ _ (by decide), Metadata.find_set_self]

/-- Claim C7: a billing-issue event for a (user, entitlement) with no
existing record performs no write and returns without error — the store is
returned untouched and the webhook still answers 200/"processed"; when a
record exists, the written record keeps `active = true` and carries the
prior record's `expires_at` over verbatim. -/
theorem billing_issue_missing_record_noop (st : Store) (u e nowIso : String)
    (ev : WebhookEvent) :
    (st (u, e) = none →
      handleBillingIssue st u e nowIso false false = Except.ok (st, false) ∧
      (ev.type = EventType.BILLING_ISSUE → ev.environment = "PRODUCTION" →
        ev.original_app_user_id = u → ev.entitlement_id = e →
        (processEvent st ev nowIso false false).status = 200 ∧
        (processEvent st ev nowIso false false).tag = "processed" ∧
        (processEvent st ev nowIso false false).store = st)) ∧
    (∀ rec, st (u, e) = some rec →
      ∃ st', handleBillingIssue st u e nowIso false false
          = Except.ok (st', true) ∧
        (st' (u, e)).map PermissionRecord.active = some true ∧
        (st' (u, e)).map PermissionRecord.expires_at = some rec.expires_at) := by
  constructor
  · intro hst
    constructor
    · simp [handleBillingIssue, hst]
    · intro hty henv hu he
      simp [processEvent, hty, henv, hu, he, handleBillingIssue, hst]
  · intro rec hst
    simp only [handleBillingIssue, hst, Bool.false_eq_true, if_false]
    refine ⟨_, rfl, ?_, ?_⟩ <;> simp [applyUpsert, hst]

/-- Witness for C7: the missing-record no-op on the empty store (with the
webhook's processed response for a concrete billing-issue event), and the
preserved expiry on a store holding one record. -/
theorem billing_issue_missing_record_noop_witness :
    (handleBillingIssue stEmpty "user-1" "product_a" "t0" false false
        = Except.ok (stEmpty, false) ∧
      (processEvent stEmpty evBilling "t0" false false).status = 200 ∧
      (processEvent stEmpty evBilling "t0" false false).tag = "processed" ∧
      (processEvent stEmpty evBilling "t0" false false).store = stEmpty) ∧
    (∃ st', handleBillingIssue stOne "user-1" "product_a" "t0" false false
        = Except.ok (st', true) ∧
      (st' ("user-1", "product_a")).map PermissionRecord.active = some true ∧
      (st' ("user-1", "product_a")).map PermissionRecord.expires_at
        = some recFuture.expires_at) := by
  constructor
  · have h := (billing_issue_missing_record_noop stEmpty "user-1" "product_a" "t0"
      evBilling).1 rfl
    exact ⟨h.1, h.2 rfl rfl rfl rfl⟩
  · exact (billing_issue_missing_record_noop stOne "user-1" "product_a" "t0"
      evBilling).2 recFuture rfl

/-- Counterexample to claim C8 as stated: the receipt validator can report
success with null fields. On a provider response that carries the
`product_a` entitlement but no `expires_date` and an empty `subscriptions`
map, it returns `success = true` with both the expiry and the originating
transaction identifier absent. -/
theorem validator_partial_success_counterexample :
    validateReceiptWithRevenueCat "receipt-1" "ios" "user-1" (some respPartial)
      = { success := true, expires_at := none,
          entitlement_id := some "product_a",
          original_transaction_id := none, error := none } := by
  rfl

/-- Claim C8 as amended: on success the validator always returns the
entitlement identifier (`"product_a"`) and no error field, but the expiry
and originating transaction identifier are copied from the provider
response and may be null — success does not guarantee they are present. -/
theorem validator_success_shape (receipt platform userId : String)
    (resp : Option RCResponse)
    (h : (validateReceiptWithRevenueCat receipt platform userId resp).success
      = true) :
    (validateReceiptWithRevenueCat receipt platform userId resp).entitlement_id
      = some "product_a" ∧
    (validateReceiptWithRevenueCat receipt platform userId resp).error = none := by
  unfold validateReceiptWithRevenueCat at *
  repeat' split at h
  all_goals simp_all

/-- Witness for the amended C8 at a concrete fully-populated success
response. -/
theorem validator_success_shape_witness :
    (validateReceiptWithRevenueCat "receipt-1" "android" "user-1"
        (some respFull)).entitlement_id = some "product_a" ∧
    (validateReceiptWithRevenueCat "receipt-1" "android" "user-1"
        (some respFull)).error = none :=
  validator_success_shape "receipt-1" "android" "user-1" (some respFull) rfl

/-- Claim C9: every activation event (initial purchase, renewal or product
change) processed in production writes a record with `active = true` and a
non-null `expires_at` equal to the ISO rendering of
`expiration_at_ms || 0`; in particular when `expiration_at_ms` is null or
0 the stored expiry is the Unix epoch instant
`1970-01-01T00:00:00.000Z`, never null. -/
theorem activation_expiry_never_null (st : Store) (ev : WebhookEvent)
    (nowIso : String)
    (henv : ev.environment = "PRODUCTION")
    (hty : ev.type = EventType.INITIAL_PURCHASE ∨ ev.type = EventType.RENEWAL ∨
           ev.type = EventType.PRODUCT_CHANGE) :
    ((processEvent st ev nowIso false false).store
        (ev.original_app_user_id, ev.entitlement_id)).map PermissionRecord.active
      = some true ∧
    ((processEvent st ev nowIso false false).store
        (ev.original_app_user_id, ev.entitlement_id)).map PermissionRecord.expires_at
      = some (some (toISOString (msOrZero ev.expiration_at_ms))) ∧
    ((ev.expiration_at_ms = none ∨ ev.expiration_at_ms = some 0) →
      ((processEvent st ev nowIso false false).store
          (ev.original_app_user_id, ev.entitlement_id)).map
          PermissionRecord.expires_at
        = some (some "1970-01-01T00:00:00.000Z")) := by
  have hmain : ((processEvent st ev nowIso false false).store
        (ev.original_app_user_id, ev.entitlement_id)).map PermissionRecord.active
      = some true ∧
      ((processEvent st ev nowIso false false).store
          (ev.original_app_user_id, ev.entitlement_id)).map
          PermissionRecord.expires_at
        = some (some (toISOString (msOrZero ev.expiration_at_ms))) := by
    rcases hty with h | h | h <;>
      constructor <;>
        cases hrec : st (ev.original_app_user_id, ev.entitlement_id) <;>
          simp [processEvent, henv, h, handleSubscriptionActivation,
            applyUpsert, hrec]
  refine ⟨hmain.1, hmain.2, ?_⟩
  intro hexp
  have h0 : msOrZero ev.expiration_at_ms = 0 := by
    rcases hexp with h | h <;> simp [msOrZero, h]
  rw [hmain.2, h0]
  rfl

/-- Witness for C9 at a concrete initial purchase with a null
`expiration_at_ms`, starting from the empty store. -/
theorem activation_expiry_never_null_witness :
    ((processEvent stEmpty evPurchase "t0" false false).store
        (evPurchase.original_app_user_id, evPurchase.entitlement_id)).map
        PermissionRecord.active = some true ∧
    ((processEvent stEmpty evPurchase "t0" false false).store
        (evPurchase.original_app_user_id, evPurchase.entitlement_id)).map
        PermissionRecord.expires_at
      = some (some (toISOString (msOrZero evPurchase.expiration_at_ms))) ∧
    ((evPurchase.expiration_at_ms = none ∨ evPurchase.expiration_at_ms = some 0) →
      ((processEvent stEmpty evPurchase "t0" false false).store
          (evPurchase.original_app_user_id, evPurchase.entitlement_id)).map
          PermissionRecord.expires_at
        = some (some "1970-01-01T00:00:00.000Z")) :=
  activation_expiry_never_null stEmpty evPurchase "t0" rfl (Or.inl rfl)

/-- Claim C10: an expiration event for a (user, entitlement) with no
existing record does not no-op: the handler inserts a fresh row with
`active = false`, a null `expires_at`, and metadata carrying status
"expired" together with an `expired_at` timestamp. -/
theorem expiration_inserts_fresh_row (st : Store) (u e nowIso : String)
    (hst : st (u, e) = none) :
    ∃ st', handleSubscriptionExpiration st u e nowIso false false
        = Except.ok (st', true) ∧
      (st' (u, e)).map PermissionRecord.active = some false ∧
      (st' (u, e)).map PermissionRecord.expires_at = some none ∧
      ((st' (u, e)).bind PermissionRecord.metadata).map (fun m => m.find "status")
        = some (some (MetaVal.jstr "expired")) ∧
      ((st' (u, e)).bind PermissionRecord.metadata).map
          (fun m => m.find "expired_at")
        = some (some (MetaVal.jstr nowIso)) := by
  refine ⟨_, rfl, ?_, ?_, ?_, ?_⟩ <;>
    simp [handleSubscriptionExpiration, applyUpsert, hst]
  · rw [Metadata.find_set_ne _ _ _ _ (by decide),
      Metadata.find_set_ne _ _ _ _ (by decide), Metadata.find_set_self]
  · rw [Metadata.find_set_ne _ _ _ _ (by decide), Metadata.find_set_self]

/-- Witness for C10 on the empty store. -/
theorem expiration_inserts_fresh_row_witness :
    ∃ st', handleSubscriptionExpiration stEmpty "user-1" "product_a" "t0"
        false false = Except.ok (st', true) ∧
      (st' ("user-1", "product_a")).map PermissionRecord.active = some false ∧
      (st' ("user-1", "product_a")).map PermissionRecord.expires_at = some none ∧
      ((st' ("user-1", "product_a")).bind PermissionRecord.metadata).map
          (fun m => m.find "status")
        = some (some (MetaVal.jstr "expired")) ∧
      ((st' ("user-1", "product_a")).bind PermissionRecord.metadata).map
          (fun m => m.find "expired_at")
        = some (some (MetaVal.jstr "t0")) :=
  expiration_inserts_fresh_row stEmpty "user-1" "product_a" "t0" rfl
